import Mathlib

/-!
Verification of the PySkCode media / code-block / collapse tag definitions.

The Python sources under `skcode/tags/` (`medias.py`, `codeblocks.py`,
`collapse.py`) are shallowly embedded below.  Python strings are modelled as
Lean `String` (a wrapper around `List Char`), stateful methods that assign to
`self.error_message` are modelled as functions returning the list of error
messages assigned, in order, together with the sequential-overwrite semantics
of field assignment (`applyErrors`).  Parts of the repository that are not in
the provided sources (the `etree` tree node base class, `tools.sanitize_url`,
`slugify`, the relative-URL base helper) and the external dependencies
(CPython stdlib helpers, the Pygments lexer registry) are modelled explicitly;
each such definition carries a doc comment saying what it models.
-/

namespace PySkCode

/-! ### Models of CPython string primitives -/

/-- Whitespace characters recognised by Python `str.strip()` (ASCII subset). -/
def isPySpace (c : Char) : Bool :=
  c == ' ' || c == '\t' || c == '\n' || c == '\r' || c == '\x0b' || c == '\x0c'

/-- `str.strip()` on the character list. -/
def stripChars (l : List Char) : List Char :=
  ((l.dropWhile isPySpace).reverse.dropWhile isPySpace).reverse

/-- Model of Python `str.strip()`. -/
def pyStrip (s : String) : String := ⟨stripChars s.data⟩

/-- Split a character list on a separator character, Python `str.split(sep)`
semantics: the empty string yields one empty chunk. -/
def splitChar (sep : Char) : List Char → List (List Char)
  | [] => [[]]
  | c :: rest =>
    if c == sep then [] :: splitChar sep rest
    else
      match splitChar sep rest with
      | [] => [[c]]
      | g :: gs => (c :: g) :: gs

/-- Model of Python `str.split(sep)` for a one-character separator. -/
def pySplit (sep : Char) (s : String) : List String :=
  (splitChar sep s.data).map fun l => ⟨l⟩

/-- Model of Python `str.splitlines()` for newline-delimited text: the empty
string gives no lines and a single trailing newline produces no empty final
line. -/
def pySplitlines (s : String) : List String :=
  if s.data.isEmpty then []
  else
    let parts := splitChar '\n' s.data
    let parts := if s.data.getLast? == some '\n' then parts.dropLast else parts
    parts.map fun l => ⟨l⟩

/-- Value of a non-empty all-digit character list. -/
def digitsVal? (l : List Char) : Option Nat :=
  if l.isEmpty then none
  else if l.all Char.isDigit then
    some (l.foldl (fun acc c => acc * 10 + (c.toNat - 48)) 0)
  else none

/-- Model of Python `int(str)` for base 10: surrounding whitespace is
stripped, an optional sign is followed by at least one decimal digit;
anything else raises `ValueError`, modelled as `none`. -/
def pyParseInt? (s : String) : Option Int :=
  match stripChars s.data with
  | '-' :: ds => (digitsVal? ds).map fun n => -(n : Int)
  | '+' :: ds => (digitsVal? ds).map fun n => (n : Int)
  | ds => (digitsVal? ds).map fun n => (n : Int)

/-- Model of `html.escape` (quote=True): the five significant characters are
replaced by their entities. -/
def escapeHtmlChar (c : Char) : List Char :=
  match c with
  | '&' => "&amp;".data
  | '<' => "&lt;".data
  | '>' => "&gt;".data
  | '"' => "&quot;".data
  | '\'' => "&#x27;".data
  | c => [c]

/-- Model of `html.escape` with quote=True, as imported under the name
`escape_html` in the sources. -/
def escape_html (s : String) : String := ⟨s.data.flatMap escapeHtmlChar⟩

/-- Entity decoding for the standard entities produced by `escape_html`;
model of `html.unescape` restricted to those entities. -/
def unescapeChars : List Char → List Char
  | '&' :: 'a' :: 'm' :: 'p' :: ';' :: rest => '&' :: unescapeChars rest
  | '&' :: 'l' :: 't' :: ';' :: rest => '<' :: unescapeChars rest
  | '&' :: 'g' :: 't' :: ';' :: rest => '>' :: unescapeChars rest
  | '&' :: 'q' :: 'u' :: 'o' :: 't' :: ';' :: rest => '"' :: unescapeChars rest
  | '&' :: '#' :: 'x' :: '2' :: '7' :: ';' :: rest => '\'' :: unescapeChars rest
  | '&' :: '#' :: '3' :: '9' :: ';' :: rest => '\'' :: unescapeChars rest
  | c :: rest => c :: unescapeChars rest
  | [] => []

/-- Model of `html.unescape`, as imported under `unescape_html_entities`. -/
def unescape_html_entities (s : String) : String := ⟨unescapeChars s.data⟩

/-- Upper-case hexadecimal digit for a value below 16. -/
def hexUpper (n : Nat) : Char :=
  if n < 10 then Char.ofNat (48 + n) else Char.ofNat (55 + n)

/-- UTF-8 bytes of a character. -/
def utf8Bytes (c : Char) : List Nat :=
  let n := c.toNat
  if n < 128 then [n]
  else if n < 2048 then [192 + n / 64, 128 + n % 64]
  else if n < 65536 then [224 + n / 4096, 128 + (n / 64) % 64, 128 + n % 64]
  else [240 + n / 262144, 128 + (n / 4096) % 64, 128 + (n / 64) % 64, 128 + n % 64]

/-- Characters `urllib.parse.quote_plus` leaves unencoded by default. -/
def isQuotePlusSafe (c : Char) : Bool :=
  c.isAlphanum || c == '_' || c == '.' || c == '-' || c == '~'

/-- Per-character encoding of `urllib.parse.quote_plus`. -/
def quotePlusChar (c : Char) : List Char :=
  if isQuotePlusSafe c then [c]
  else if c == ' ' then ['+']
  else (utf8Bytes c).flatMap fun b => ['%', hexUpper (b / 16), hexUpper (b % 16)]

/-- Model of `urllib.parse.quote_plus`. -/
def quote_plus (s : String) : String := ⟨s.data.flatMap quotePlusChar⟩

/-- Hexadecimal digit value of a character, if any. -/
def hexVal? (c : Char) : Option Nat :=
  if c.isDigit then some (c.toNat - 48)
  else if 'a' ≤ c && c ≤ 'f' then some (c.toNat - 87)
  else if 'A' ≤ c && c ≤ 'F' then some (c.toNat - 55)
  else none

/-- Percent/plus decoding of `urllib.parse.unquote_plus` (accurate for ASCII
percent escapes, which are the only ones these tags can meet). -/
def unquoteChars : List Char → List Char
  | '+' :: rest => ' ' :: unquoteChars rest
  | '%' :: h1 :: h2 :: rest =>
    match hexVal? h1, hexVal? h2 with
    | some a, some b => Char.ofNat (a * 16 + b) :: unquoteChars rest
    | _, _ => '%' :: unquoteChars (h1 :: h2 :: rest)
  | c :: rest => c :: unquoteChars rest
  | [] => []

/-- Model of `urllib.parse.unquote_plus`. -/
def unquote_plus (s : String) : String := ⟨unquoteChars s.data⟩

/-! ### Model of `urllib.parse.urlsplit` and `parse_qs` -/

/-- Characters allowed in a URL scheme after the leading letter. -/
def isSchemeChar (c : Char) : Bool :=
  c.isAlpha || c.isDigit || c == '+' || c == '-' || c == '.'

/-- Result record of `urllib.parse.urlsplit`. -/
structure SplitResult where
  scheme : String
  netloc : String
  path : String
  query : String
  fragment : String
deriving Repr, DecidableEq

/-- Split a character list at the first occurrence of a separator; the second
component is `none` when the separator does not occur. -/
def splitFirstAt (sep : Char) : List Char → List Char × Option (List Char)
  | [] => ([], none)
  | c :: rest =>
    if c == sep then ([], some rest)
    else
      match splitFirstAt sep rest with
      | (pre, post) => (c :: pre, post)

/-- Model of `urllib.parse.urlsplit`: recognise a scheme (leading letter then
scheme characters, terminated by a colon, lower-cased), a netloc after `//`
(terminated by `/`, `?` or `#`), then the fragment after the first `#` and
the query after the first `?`.  A netloc with unbalanced square brackets
raises `ValueError` in CPython, modelled as `none`. -/
def pyUrlsplit (url : String) : Option SplitResult :=
  let l := url.data
  let pre := l.takeWhile isSchemeChar
  let (scheme, rest) :=
    match pre.head? with
    | some c =>
      if c.isAlpha && (l.drop pre.length).head? == some ':' then
        (pre.map Char.toLower, l.drop (pre.length + 1))
      else ([], l)
    | none => ([], l)
  let (netloc, rest) :=
    match rest with
    | '/' :: '/' :: r =>
      let nl := r.takeWhile fun c => !(c == '/' || c == '?' || c == '#')
      (nl, r.drop nl.length)
    | r => ([], r)
  if (netloc.contains '[') != (netloc.contains ']') then none
  else
    let (rest, fragment) :=
      match splitFirstAt '#' rest with
      | (a, some b) => (a, b)
      | (a, none) => (a, [])
    let (path, query) :=
      match splitFirstAt '?' rest with
      | (a, some b) => (a, b)
      | (a, none) => (a, [])
    some ⟨⟨scheme⟩, ⟨netloc⟩, ⟨path⟩, ⟨query⟩, ⟨fragment⟩⟩

/-- One `name=value` piece of a query string, decoded; pieces without `=` or
with an empty value are dropped (`parse_qs` default keep_blank_values=False). -/
def parseQsPair? (piece : String) : Option (String × String) :=
  if piece.data.isEmpty then none
  else
    match splitFirstAt '=' piece.data with
    | (_, none) => none
    | (name, some value) =>
      if value.isEmpty then none
      else some (unquote_plus ⟨name⟩, unquote_plus ⟨value⟩)

/-- Model of `urllib.parse.parse_qs(query).get(key)` followed by taking the
first value of the list: the first decoded value bound to `key`. -/
def parse_qs_get_first (query : String) (key : String) : Option String :=
  (((pySplit '&' query).filterMap parseQsPair?).find? fun p => p.1 == key).map
    fun p => p.2

/-- Model of `posixpath.basename`: the part after the last slash. -/
def posixBasename (s : String) : String :=
  ⟨(splitChar '/' s.data).getLastD []⟩

/-- Model of Python `str.rstrip(sep)` for the slash character. -/
def rstripSlash (s : String) : String :=
  ⟨(s.data.reverse.dropWhile fun c => c == '/').reverse⟩

/-! ### The tree node data model and repository helpers -/

/-- Modelled from the spec: the `etree.TreeNode` data visible to the tag
hooks — an attribute mapping (string keys to string values, keys unique per
node), the raw text content of a `parse_embedded = false` node, the optional
error annotation set by the Sanitizer, and the ordered child sequence.
`etree.py` is not among the provided sources; the children are opaque
identifiers because none of the tag hooks below ever reads or writes them. -/
structure TreeNode where
  attrs : List (String × String)
  content : String
  error_message : Option String
  children : List Nat
deriving Repr, DecidableEq

/-- Look up an attribute value, Python `self.attrs.get(key)`. -/
def TreeNode.attr? (n : TreeNode) (key : String) : Option String :=
  n.attrs.lookup key

/-- Modelled from the spec: `TreeNode.get_raw_content` returns the verbatim
raw content captured for a node whose definition has `parse_embedded` false. -/
def TreeNode.get_raw_content (n : TreeNode) : String := n.content

/-- Modelled from the spec: the base `TreeNode.sanitize_node` hook invoked by
`super()` performs no normalization of its own (the spec assigns all
validation behaviour to the tag-specific hooks). -/
def TreeNode.base_sanitize_node (_breadcrumb : List Nat) (n : TreeNode) :
    TreeNode := n

/-- Modelled from the spec: `TreeNode.get_attribute_value` returns the first
non-empty attribute value among the given keys (the tag-name shorthand
attribute is stored under the empty key), else the default. -/
def TreeNode.get_attribute_value (n : TreeNode) (keys : List String)
    (dflt : String) : String :=
  match keys.filterMap fun k =>
      match n.attr? k with
      | some v => if v.isEmpty then none else some v
      | none => none with
  | [] => dflt
  | v :: _ => v

/-- Modelled from the spec: `get_relative_url_base` reads the relative-URL
base configured on the root tree node; no base is configured in the
behaviour these claims describe, so it is the empty string. -/
def get_relative_url_base : String := ""

/-- Modelled from the spec: `skcode.tools.sanitize_url`, the URL sanitizer
(scheme allow-list plus optional relative-to-absolute resolution).  A URL
whose scheme is outside the allow-list yields the empty string; a scheme-less
URL is kept, since resolution against the empty base is the identity. -/
def sanitize_url (url : String) (allowed_schemes : List String)
    (_absolute_base_url : String) : String :=
  if url.isEmpty then ""
  else
    match pyUrlsplit url with
    | none => ""
    | some u =>
      if u.scheme.isEmpty then url
      else if allowed_schemes.contains u.scheme then url
      else ""

/-- Merge consecutive dashes into one. -/
def collapseDashes : List Char → List Char
  | [] => []
  | '-' :: rest =>
    match collapseDashes rest with
    | '-' :: tail => '-' :: tail
    | tail => '-' :: tail
  | c :: rest => c :: collapseDashes rest

/-- Modelled from the spec: `skcode.tools.slugify`, identifier slugification —
lower-case the text, replace non-alphanumeric runs by single hyphens and trim
hyphens at both ends. -/
def slugify (s : String) : String :=
  let mapped := s.data.map fun c => if c.isAlphanum then c.toLower else '-'
  ⟨(((collapseDashes mapped).dropWhile fun c => c == '-').reverse.dropWhile
      fun c => c == '-').reverse⟩

/-- Sequential overwriting of the node error annotation: every message in the
list is assigned to `error_message` in order, exactly as the Python
assignments `self.error_message = ...` execute, so the field ends holding the
last message (or keeps its previous value when the list is empty). -/
def applyErrors (msgs : List String) (old : Option String) : Option String :=
  msgs.foldl (fun _ m => some m) old

theorem applyErrors_eq_getLast (msgs : List String) (old : Option String) :
    applyErrors msgs old = match msgs.getLast? with
      | some m => some m
      | none => old := by
  induction msgs generalizing old with
  | nil => rfl
  | cons m rest ih =>
    cases rest with
    | nil => rfl
    | cons b bs =>
      have h1 : applyErrors (m :: b :: bs) old = applyErrors (b :: bs) (some m) :=
        rfl
      rw [h1, ih (some m), List.getLast?_cons_cons]
      cases hgl : (b :: bs).getLast? with
      | some x => rfl
      | none => simp at hgl

theorem applyErrors_append (a b : List String) (old : Option String) :
    applyErrors (a ++ b) old = applyErrors b (applyErrors a old) :=
  List.foldl_append ..

/-! ### `skcode/tags/medias.py`: `ImageTreeNode` -/

namespace ImageTreeNode

/-- Allowed schemes for URL. -/
def allowed_schemes : List String := ["http", "https"]

/-- `ImageTreeNode.get_image_src_link`: the `src` attribute when it is a
non-empty string, else the stripped raw content passed through
`sanitize_url` with the scheme allow-list and the relative URL base. -/
def get_image_src_link (n : TreeNode) : String :=
  let srcAttr := (n.attr? "src").getD ""
  if !srcAttr.isEmpty then srcAttr
  else
    sanitize_url (pyStrip n.get_raw_content) allowed_schemes
      get_relative_url_base

/-- `ImageTreeNode.get_alt_text`: the `alt` attribute, HTML entities
decoded. -/
def get_alt_text (n : TreeNode) : String :=
  unescape_html_entities ((n.attr? "alt").getD "")

/-- `ImageTreeNode.get_img_width`: the parsed width (0 when absent, empty,
non-positive or unparsable) together with the error messages assigned to
`self.error_message`, in assignment order. -/
def get_img_width (n : TreeNode) : Int × List String :=
  match n.attr? "width" with
  | none => (0, [])
  | some s =>
    if s.isEmpty then (0, [])
    else
      match pyParseInt? s with
      | some v => if 0 < v then (v, []) else (0, ["Width must be positive"])
      | none => (0, [s ++ " is not a number"])

/-- `ImageTreeNode.get_img_height`, mirror of the width getter. -/
def get_img_height (n : TreeNode) : Int × List String :=
  match n.attr? "height" with
  | none => (0, [])
  | some s =>
    if s.isEmpty then (0, [])
    else
      match pyParseInt? s with
      | some v => if 0 < v then (v, []) else (0, ["Height must be positive"])
      | none => (0, [s ++ " is not a number"])

/-- `ImageTreeNode.sanitize_node`: call the base hook, run the width and
height getters (whose error assignments land on the node), then flag a
missing or erroneous source URL. -/
def sanitize_node (breadcrumb : List Nat) (n : TreeNode) : TreeNode :=
  let n0 := TreeNode.base_sanitize_node breadcrumb n
  let n1 := { n0 with
    error_message := applyErrors (get_img_width n0).2 n0.error_message }
  let n2 := { n1 with
    error_message := applyErrors (get_img_height n1).2 n1.error_message }
  if (get_image_src_link n2).isEmpty then
    { n2 with error_message := some "Missing or erroneous source URL" }
  else n2

/-- `ImageTreeNode.render_html`: interpolate the source link, the escaped alt
text and the positive width/height into the `img` template. -/
def render_html (n : TreeNode) (_inner_html : String) : String :=
  let src_link := get_image_src_link n
  let alt_text := get_alt_text n
  let extra_attrs :=
    if !alt_text.isEmpty then " alt=\"" ++ escape_html alt_text ++ "\"" else ""
  let img_width := (get_img_width n).1
  let extra_attrs :=
    if img_width ≠ 0 then
      extra_attrs ++ " width=\"" ++ toString img_width ++ "\""
    else extra_attrs
  let img_height := (get_img_height n).1
  let extra_attrs :=
    if img_height ≠ 0 then
      extra_attrs ++ " height=\"" ++ toString img_height ++ "\""
    else extra_attrs
  "<img src=\"" ++ src_link ++ "\"" ++ extra_attrs ++ " />"

end ImageTreeNode

/-! ### `skcode/tags/medias.py`: `YoutubeTreeNode` -/

namespace YoutubeTreeNode

/-- Allowed Youtube domains. -/
def allowed_domains : List String :=
  ["www.youtube.com", "youtube.com", "youtu.be"]

/-- Domains whose video ID sits in the URL path. -/
def video_id_in_path_domains : List String := ["youtu.be"]

/-- Default iframe width. -/
def default_iframe_width : Nat := 560

/-- Default iframe height. -/
def default_iframe_height : Nat := 315

/-- `YoutubeTreeNode.get_youtube_video_id`: strip the raw content, split the
URL, reject a netloc outside the domain allow-list, then read the video ID
from the `v` query argument (query domains) or from the last path component
(path domains). -/
def get_youtube_video_id (n : TreeNode) : String :=
  let url := pyStrip n.get_raw_content
  if url.isEmpty then ""
  else
    match pyUrlsplit url with
    | none => ""
    | some u =>
      if !allowed_domains.contains u.netloc then ""
      else if !video_id_in_path_domains.contains u.netloc then
        if u.query.isEmpty then ""
        else
          match parse_qs_get_first u.query "v" with
          | some video_id => pyStrip video_id
          | none => ""
      else
        if u.path.isEmpty || !(u.path.data.head? == some '/') then ""
        else
          let video_id := posixBasename (rstripSlash u.path)
          if !video_id.isEmpty then pyStrip video_id else ""

/-- `YoutubeTreeNode.sanitize_node`: record an error when no video ID can be
extracted from the raw content. -/
def sanitize_node (breadcrumb : List Nat) (n : TreeNode) : TreeNode :=
  let n0 := TreeNode.base_sanitize_node breadcrumb n
  if (get_youtube_video_id n0).isEmpty then
    { n0 with error_message := some "Missing or erroneous video URL" }
  else n0

/-- `YoutubeTreeNode.render_html`: the iframe embed template with the quoted
video ID, or the inner HTML unchanged when there is no video ID. -/
def render_html (n : TreeNode) (inner_html : String) : String :=
  let video_id := get_youtube_video_id n
  if !video_id.isEmpty then
    "<div class=\"embed-container center-block\">\n        <div class=\"embed-video\">\n            <iframe width=\""
      ++ toString default_iframe_width ++ "\" height=\""
      ++ toString default_iframe_height
      ++ "\" src=\"https://www.youtube.com/embed/" ++ quote_plus video_id
      ++ "\" frameborder=\"0\" allowfullscreen=\"true\"></iframe>\n        </div>\n    </div>\n    "
  else inner_html

/-- `YoutubeTreeNode.render_text`: the short link with the quoted video ID,
or the inner text unchanged when there is no video ID. -/
def render_text (n : TreeNode) (inner_text : String) : String :=
  let video_id := get_youtube_video_id n
  if !video_id.isEmpty then "https://youtu.be/" ++ quote_plus video_id
  else inner_text

end YoutubeTreeNode

/-! ### `skcode/tags/codeblocks.py`: `CodeBlockTreeNode` -/

/-- Model of the external Pygments lexer registry: `get_lexer_by_name`
succeeds exactly for the names in this fixed registry, which contains the
default plain-text lexer `text`; for any other name it raises
`ClassNotFound`. -/
def known_language_names : List String :=
  ["text", "python", "python3", "html", "css", "javascript", "json", "c",
   "cpp", "java", "bash"]

/-- Model of `pygments.lexers.get_lexer_by_name`: the lexer (identified by
its name) when registered, otherwise the `ClassNotFound` exception. -/
def get_lexer_by_name (name : String) : Except String String :=
  if known_language_names.contains name then Except.ok name
  else Except.error "ClassNotFound"

namespace CodeBlockTreeNode

/-- Default language name. -/
def default_language_name : String := "text"

/-- `CodeBlockTreeNode.get_language_name`: first non-empty among the tag-name
shorthand attribute and the `language` attribute, else the default, HTML
entities decoded. -/
def get_language_name (n : TreeNode) : String :=
  unescape_html_entities
    (n.get_attribute_value ["", "language"] default_language_name)

/-- The loop body of `get_highlight_lines` over the comma-separated pieces:
accepted line numbers (parsed value at least 0) and the error messages
assigned to `self.error_message`, both in source order. -/
def hlScan : List String → List Int × List String
  | [] => ([], [])
  | piece :: rest =>
    let line_num := pyStrip piece
    if line_num.isEmpty then hlScan rest
    else
      match pyParseInt? line_num with
      | some v =>
        let r := hlScan rest
        if 0 ≤ v then (v :: r.1, r.2)
        else (r.1, "Line number must be positive" :: r.2)
      | none =>
        let r := hlScan rest
        (r.1, (line_num ++ " is not a number") :: r.2)

/-- `CodeBlockTreeNode.get_highlight_lines`: parse the `hl_lines` attribute;
the returned list and the error messages assigned while scanning. -/
def get_highlight_lines (n : TreeNode) : List Int × List String :=
  let highlight_lines := (n.attr? "hl_lines").getD ""
  if highlight_lines.isEmpty then ([], [])
  else hlScan (pySplit ',' highlight_lines)

/-- `CodeBlockTreeNode.get_start_line_number`: the parsed `linenostart`
attribute (1 when absent, empty, negative or unparsable) together with the
error messages assigned to `self.error_message`. -/
def get_start_line_number (n : TreeNode) : Int × List String :=
  let first_line_number := (n.attr? "linenostart").getD ""
  if first_line_number.isEmpty then (1, [])
  else
    match pyParseInt? first_line_number with
    | some v =>
      if 0 ≤ v then (v, [])
      else (1, ["Line number must be positive"])
    | none => (1, [first_line_number ++ " is not a number"])

/-- `CodeBlockTreeNode.get_filename`: the `filename` attribute, HTML entities
decoded. -/
def get_filename (n : TreeNode) : String :=
  unescape_html_entities ((n.attr? "filename").getD "")

/-- `CodeBlockTreeNode.get_source_link_url`: the `src` attribute passed
through `sanitize_url` (default allow-list) with the relative URL base. -/
def get_source_link_url (n : TreeNode) : String :=
  sanitize_url ((n.attr? "src").getD "") ["http", "https"]
    get_relative_url_base

/-- `CodeBlockTreeNode.get_figure_id`: the slugified `id` attribute. -/
def get_figure_id (n : TreeNode) : String :=
  slugify ((n.attr? "id").getD "")

/-- A line is blank when it strips to nothing — Python
`not line.strip()`. -/
def isBlankLine (l : String) : Bool := (pyStrip l).isEmpty

/-- First `while` loop of `get_cleaned_content`: pop leading blank lines. -/
def dropLeadingBlankLines (ls : List String) : List String :=
  ls.dropWhile isBlankLine

/-- Second `while` loop of `get_cleaned_content`: pop trailing blank lines. -/
def dropTrailingBlankLines (ls : List String) : List String :=
  (ls.reverse.dropWhile isBlankLine).reverse

/-- `CodeBlockTreeNode.get_cleaned_content(splitlines=True)`: the content
lines with leading and trailing blank lines removed. -/
def get_cleaned_content_lines (n : TreeNode) : List String :=
  dropTrailingBlankLines (dropLeadingBlankLines (pySplitlines n.content))

/-- `CodeBlockTreeNode.get_cleaned_content()`: the cleaned lines joined by
newlines. -/
def get_cleaned_content (n : TreeNode) : String :=
  String.intercalate "\n" (get_cleaned_content_lines n)

/-- The `try`/`except ClassNotFound` block of `sanitize_node`: the error
message assigned when the language name is non-empty and has no registered
lexer. -/
def langEvents (n : TreeNode) : List String :=
  let language_name := get_language_name n
  if !language_name.isEmpty then
    match get_lexer_by_name language_name with
    | Except.ok _ => []
    | Except.error _ => ["Unknown language"]
  else []

/-- `CodeBlockTreeNode.sanitize_node`: call the base hook, run
`get_highlight_lines` and `get_start_line_number` (whose error assignments
land on the node), then check the language name against the lexer
registry. -/
def sanitize_node (breadcrumb : List Nat) (n : TreeNode) : TreeNode :=
  let n0 := TreeNode.base_sanitize_node breadcrumb n
  let n1 := { n0 with
    error_message := applyErrors (get_highlight_lines n0).2 n0.error_message }
  let n2 := { n1 with
    error_message := applyErrors (get_start_line_number n1).2 n1.error_message }
  { n2 with error_message := applyErrors (langEvents n2) n2.error_message }

/-- Body of `CodeBlockTreeNode.render_html` once a lexer has been resolved:
highlight the cleaned content (through the injected highlighter, which
stands for `pygments.highlight` with the formatter options computed from the
node), wrap it in the scrolling `div`, then add the caption block, the
anchor, or nothing.  `force_rel_nofollow` keeps its default value `True`. -/
def render_html_body (highlighter : String → List Int → Int → String → String)
    (lexer : String) (n : TreeNode) : String :=
  let figure_id := get_figure_id n
  let source_code :=
    highlighter lexer (get_highlight_lines n).1 (get_start_line_number n).1
      (get_cleaned_content n)
  let source_code := "<div class=\"codetable\">\n    " ++ source_code ++ "\n</div>"
  let src_filename := get_filename n
  let src_link_url := get_source_link_url n
  if !src_filename.isEmpty || !src_link_url.isEmpty then
    let caption := "Source : " ++
      (if !src_filename.isEmpty then escape_html src_filename
       else src_link_url)
    let caption :=
      if !src_link_url.isEmpty then
        "<a href=\"" ++ src_link_url ++ "\" rel=\"nofollow\" target=\"_blank\">"
          ++ caption ++ " <i class=\"fa fa-link\" aria-hidden=\"true\"></i></a>"
      else caption
    "<div class=\"panel panel-default\" id=\"" ++ figure_id
      ++ "\">\n    <div class=\"panel-body\">\n        " ++ source_code
      ++ "\n    </div>\n    <div class=\"panel-footer\">\n        " ++ caption
      ++ "\n    </div>\n</div>"
  else if !figure_id.isEmpty then
    "<a id=\"" ++ figure_id ++ "\"></a>\n" ++ source_code
  else source_code

/-- `CodeBlockTreeNode.render_html`: resolve the lexer for the language name,
falling back to the default plain-text lexer on `ClassNotFound` (only the
first lookup is inside the `try`; a failure of the fallback lookup would
propagate, modelled as `Except.error`). -/
def render_html (highlighter : String → List Int → Int → String → String)
    (n : TreeNode) (_inner_html : String) : Except String String :=
  match get_lexer_by_name (get_language_name n) with
  | Except.ok lexer => Except.ok (render_html_body highlighter lexer n)
  | Except.error _ =>
    match get_lexer_by_name default_language_name with
    | Except.ok lexer => Except.ok (render_html_body highlighter lexer n)
    | Except.error e => Except.error e

end CodeBlockTreeNode

/-! ### `skcode/tags/collapse.py` -/

namespace CollapseBaseTreeNode

/-- `CollapseBaseTreeNode.render_html`: the `div` template with the canonical
tag name as CSS class around the inner HTML. -/
def render_html (canonical_tag_name : String) (inner_html : String) : String :=
  "<div class=\"" ++ canonical_tag_name ++ "\">" ++ inner_html ++ "</div>\n"

/-- `CollapseBaseTreeNode.render_text`: returns the inner text. -/
def render_text (_n : TreeNode) (inner_text : String) : String := inner_text

end CollapseBaseTreeNode

/-- Canonical tag name of `CollapseTreeNode`. -/
def CollapseTreeNode.canonical_tag_name : String := "collapse"

/-- Canonical tag name of `Collapse2TreeNode`. -/
def Collapse2TreeNode.canonical_tag_name : String := "collapse2"

/-! ### Helper lemmas about the sanitize hooks -/

/-- The error messages recorded during `CodeBlockTreeNode.sanitize_node`, in
assignment order: highlight-line problems, then start-line problems, then the
unknown-language problem. -/
def cbProblems (n : TreeNode) : List String :=
  ((CodeBlockTreeNode.get_highlight_lines n).2 ++
    (CodeBlockTreeNode.get_start_line_number n).2) ++
    CodeBlockTreeNode.langEvents n

/-- The error messages recorded during `ImageTreeNode.sanitize_node`, in
assignment order: width problems, then height problems, then the
missing-source problem. -/
def imageProblems (n : TreeNode) : List String :=
  ((ImageTreeNode.get_img_width n).2 ++ (ImageTreeNode.get_img_height n).2) ++
    (if (ImageTreeNode.get_image_src_link n).isEmpty then
      ["Missing or erroneous source URL"]
    else [])

/-- The error messages recorded during `YoutubeTreeNode.sanitize_node`. -/
def ytProblems (n : TreeNode) : List String :=
  if (YoutubeTreeNode.get_youtube_video_id n).isEmpty then
    ["Missing or erroneous video URL"]
  else []

theorem cb_sanitize_unfold (breadcrumb : List Nat) (n : TreeNode) :
    CodeBlockTreeNode.sanitize_node breadcrumb n =
      { n with error_message := (applyErrors (CodeBlockTreeNode.langEvents n)
          (applyErrors (CodeBlockTreeNode.get_start_line_number n).2
            (applyErrors (CodeBlockTreeNode.get_highlight_lines n).2
              n.error_message))) } := rfl

theorem cb_sanitize_eq (breadcrumb : List Nat) (n : TreeNode) :
    CodeBlockTreeNode.sanitize_node breadcrumb n =
      { n with error_message := applyErrors (cbProblems n) n.error_message } := by
  rw [cb_sanitize_unfold]
  show _ = { n with error_message := (applyErrors
      (((CodeBlockTreeNode.get_highlight_lines n).2 ++
        (CodeBlockTreeNode.get_start_line_number n).2) ++
        CodeBlockTreeNode.langEvents n) n.error_message) }
  rw [applyErrors_append, applyErrors_append]

theorem image_sanitize_unfold (breadcrumb : List Nat) (n : TreeNode) :
    ImageTreeNode.sanitize_node breadcrumb n =
      (if (ImageTreeNode.get_image_src_link n).isEmpty then
        { n with error_message := some "Missing or erroneous source URL" }
      else
        { n with error_message := (applyErrors (ImageTreeNode.get_img_height n).2
            (applyErrors (ImageTreeNode.get_img_width n).2
              n.error_message)) }) := rfl

theorem image_sanitize_eq (breadcrumb : List Nat) (n : TreeNode) :
    ImageTreeNode.sanitize_node breadcrumb n =
      { n with error_message := applyErrors (imageProblems n) n.error_message } := by
  rw [image_sanitize_unfold]
  cases h : (ImageTreeNode.get_image_src_link n).isEmpty with
  | true =>
    have hP : imageProblems n =
        ((ImageTreeNode.get_img_width n).2 ++
          (ImageTreeNode.get_img_height n).2) ++
          ["Missing or erroneous source URL"] := by
      simp [imageProblems, h]
    rw [if_pos rfl, hP, applyErrors_append]
    rfl
  | false =>
    have hP : imageProblems n =
        (ImageTreeNode.get_img_width n).2 ++
          (ImageTreeNode.get_img_height n).2 := by
      simp [imageProblems, h]
    rw [if_neg (by decide), hP, applyErrors_append]

theorem yt_sanitize_unfold (breadcrumb : List Nat) (n : TreeNode) :
    YoutubeTreeNode.sanitize_node breadcrumb n =
      (if (YoutubeTreeNode.get_youtube_video_id n).isEmpty then
        { n with error_message := some "Missing or erroneous video URL" }
      else n) := rfl

theorem yt_sanitize_eq (breadcrumb : List Nat) (n : TreeNode) :
    YoutubeTreeNode.sanitize_node breadcrumb n =
      { n with error_message :=
        applyErrors (ytProblems n) n.error_message } := by
  rw [yt_sanitize_unfold]
  cases h : (YoutubeTreeNode.get_youtube_video_id n).isEmpty with
  | true => simp only [ytProblems, h, if_true, applyErrors]; rfl
  | false =>
    simp only [ytProblems, h, if_false, Bool.false_eq_true, applyErrors]
    rfl

theorem applyErrors_self_idem (p : List String) (old : Option String) :
    applyErrors p (applyErrors p old) = applyErrors p old := by
  cases hp : p.getLast? with
  | some m => simp [applyErrors_eq_getLast, hp]
  | none => simp [applyErrors_eq_getLast, hp]

/-! ### Claims -/

/-- Image node whose `src` attribute holds an attribute-breakout payload. -/
def c1_node : TreeNode :=
  ⟨[("src", "\"><script>alert(1)</script>")], "", none, []⟩

/-- Claim C1: the spec demands that no attacker-controlled string (the `src`
attribute value in particular) reaches the HTML output of `render_html`
without passing through the HTML-escape function or the URL sanitizer.  The
code violates this: `get_image_src_link` returns the `src` attribute value
verbatim and `render_html` interpolates it into the `img` template with
neither escaping nor sanitization, so a payload containing a quote breaks out
of the attribute unchanged (while the escape function would have rewritten
it). -/
theorem claim_C1_src_attr_reaches_html_unescaped :
    ImageTreeNode.render_html c1_node "" =
      "<img src=\"\"><script>alert(1)</script>\" />"
    ∧ ImageTreeNode.get_image_src_link c1_node =
        "\"><script>alert(1)</script>"
    ∧ escape_html "\"><script>alert(1)</script>" ≠
        "\"><script>alert(1)</script>" := by
  refine ⟨rfl, rfl, by decide⟩

/-- Image node whose `src` attribute carries a disallowed scheme. -/
def c2_node : TreeNode := ⟨[("src", "javascript:alert(1)")], "", none, []⟩

/-- Image node whose raw content carries the same disallowed-scheme URL. -/
def c2_content_node : TreeNode := ⟨[], "javascript:alert(1)", none, []⟩

/-- Claim C2: the claim says any candidate URL with a scheme outside the
allow-list yields the empty string from `get_image_src_link` and a recorded
validation error, whether it came from the `src` attribute or from the raw
content.  The code violates this for the attribute path: the `src` attribute
value is returned verbatim without the allow-list check and `sanitize_node`
records no error — although the sanitizer itself would have rejected the
scheme, as it does on the raw-content path for the identical URL. -/
theorem claim_C2_scheme_allowlist_bypassed_for_src_attr :
    ImageTreeNode.get_image_src_link c2_node = "javascript:alert(1)"
    ∧ (ImageTreeNode.sanitize_node [] c2_node).error_message = none
    ∧ ImageTreeNode.allowed_schemes.contains "javascript" = false
    ∧ sanitize_url "javascript:alert(1)" ImageTreeNode.allowed_schemes
        get_relative_url_base = ""
    ∧ ImageTreeNode.get_image_src_link c2_content_node = ""
    ∧ (ImageTreeNode.sanitize_node [] c2_content_node).error_message =
        some "Missing or erroneous source URL" := by
  refine ⟨rfl, rfl, rfl, by decide, by decide, by decide⟩

/-- Claim C9: `get_start_line_number` returns 1 when the `linenostart`
attribute is absent or empty; returns 1 and records a validation error when
the attribute is non-numeric or a negative integer; and returns the parsed
integer when it is at least zero — in particular 0 is accepted and returned
with no error recorded. -/
theorem claim_C9_start_line_number_cases (n : TreeNode) :
    ((n.attr? "linenostart" = none ∨ n.attr? "linenostart" = some "") →
      CodeBlockTreeNode.get_start_line_number n = (1, []))
    ∧ (∀ s, n.attr? "linenostart" = some s → s.isEmpty = false →
        pyParseInt? s = none →
        CodeBlockTreeNode.get_start_line_number n =
          (1, [s ++ " is not a number"]))
    ∧ (∀ s v, n.attr? "linenostart" = some s → s.isEmpty = false →
        pyParseInt? s = some v → v < 0 →
        CodeBlockTreeNode.get_start_line_number n =
          (1, ["Line number must be positive"]))
    ∧ (∀ s v, n.attr? "linenostart" = some s → s.isEmpty = false →
        pyParseInt? s = some v → 0 ≤ v →
        CodeBlockTreeNode.get_start_line_number n = (v, [])) := by
  refine ⟨?_, ?_, ?_, ?_⟩
  · rintro (h | h) <;>
      simp [CodeBlockTreeNode.get_start_line_number, h,
        show ("" : String).isEmpty = true from rfl]
  · intro s hs hne hparse
    simp [CodeBlockTreeNode.get_start_line_number, hs, hne, hparse]
  · intro s v hs hne hparse hneg
    have hnotle : ¬ (0 : Int) ≤ v := not_le.mpr hneg
    simp [CodeBlockTreeNode.get_start_line_number, hs, hne, hparse, hnotle]
  · intro s v hs hne hparse hge
    simp [CodeBlockTreeNode.get_start_line_number, hs, hne, hparse, hge]

/-- Code block node with `linenostart` set to zero. -/
def c9_node : TreeNode := ⟨[("linenostart", "0")], "", none, []⟩

/-- Witness for claim C9: the value 0 is accepted and returned without any
error being recorded. -/
theorem claim_C9_witness :
    CodeBlockTreeNode.get_start_line_number c9_node = (0, []) :=
  (claim_C9_start_line_number_cases c9_node).2.2.2 "0" 0 (by decide)
    (by decide) (by decide) (by decide)

/-- Specification-side characterisation, following the claim wording: the
accepted value of one `hl_lines` token is its parsed value when the token is
a valid positive integer, and nothing otherwise. -/
def spec_accepted_value (piece : String) : Option Int :=
  let t := pyStrip piece
  if t.isEmpty then none
  else
    match pyParseInt? t with
    | some v => if 0 < v then some v else none
    | none => none

/-- Specification-side characterisation, following the claim wording: the
validation error recorded for one rejected `hl_lines` token — negative
numbers and non-numeric tokens are rejected, valid positive integers and
blank tokens are not. -/
def spec_rejection_message (piece : String) : Option String :=
  let t := pyStrip piece
  if t.isEmpty then none
  else
    match pyParseInt? t with
    | some v => if v < 0 then some "Line number must be positive" else none
    | none => some (t ++ " is not a number")

/-- A token is one of the three kinds the claim quantifies over — a valid
positive integer, a negative number, or a non-numeric token — exactly when
it does not parse to zero (blank tokens are skipped by the loop and are
allowed here as well). -/
def hl_token_well_classed (piece : String) : Bool :=
  match pyParseInt? (pyStrip piece) with
  | some v => v != 0
  | none => true

theorem hlScan_eq_spec (ts : List String)
    (h : ∀ p ∈ ts, hl_token_well_classed p = true) :
    CodeBlockTreeNode.hlScan ts =
      (ts.filterMap spec_accepted_value,
        ts.filterMap spec_rejection_message) := by
  induction ts with
  | nil => rfl
  | cons p rest ih =>
    have hp : hl_token_well_classed p = true := h p (List.mem_cons_self p rest)
    have hr := ih fun q hq => h q (List.mem_cons_of_mem p hq)
    simp only [CodeBlockTreeNode.hlScan, List.filterMap_cons]
    cases he : (pyStrip p).isEmpty with
    | true =>
      simp only [spec_accepted_value, spec_rejection_message, he, if_pos rfl,
        if_true, hr]
    | false =>
      cases hparse : pyParseInt? (pyStrip p) with
      | some v =>
        have hv : v ≠ 0 := by
          simpa [hl_token_well_classed, hparse] using hp
        cases hle : decide ((0 : Int) ≤ v) with
        | true =>
          have hle' : (0 : Int) ≤ v := of_decide_eq_true hle
          have hpos : 0 < v := lt_of_le_of_ne hle' (Ne.symm hv)
          have hneg : ¬ v < 0 := not_lt.mpr hle'
          simp only [spec_accepted_value, spec_rejection_message, he, hparse,
            Bool.false_eq_true, if_false, if_pos hle', if_pos hpos,
            if_neg hneg, hr]
        | false =>
          have hlt : v < 0 := by
            have := of_decide_eq_false hle
            omega
          have hnotle : ¬ (0 : Int) ≤ v := not_le.mpr hlt
          have hnotpos : ¬ (0 : Int) < v := by omega
          simp only [spec_accepted_value, spec_rejection_message, he, hparse,
            Bool.false_eq_true, if_false, if_neg hnotle, if_neg hnotpos,
            if_pos hlt, hr]
      | none =>
        simp only [spec_accepted_value, spec_rejection_message, he, hparse,
          Bool.false_eq_true, if_false, hr]

/-- Claim C3: for an `hl_lines` attribute value that is a comma-separated
list whose stripped tokens are valid positive integers, negative numbers or
non-numeric tokens, `get_highlight_lines` accepts exactly the valid positive
integers (in order) and records a validation error for each rejected token
(the error assignments, in scanning order; the node field retains the last
one). -/
theorem claim_C3_highlight_lines_parsing (n : TreeNode) (v : String)
    (hv : n.attr? "hl_lines" = some v) (hne : v.isEmpty = false)
    (h : ∀ p ∈ pySplit ',' v, hl_token_well_classed p = true) :
    (CodeBlockTreeNode.get_highlight_lines n).1 =
      (pySplit ',' v).filterMap spec_accepted_value
    ∧ (CodeBlockTreeNode.get_highlight_lines n).2 =
      (pySplit ',' v).filterMap spec_rejection_message := by
  have hs := hlScan_eq_spec (pySplit ',' v) h
  simp only [CodeBlockTreeNode.get_highlight_lines, hv, Option.getD_some,
    hne, Bool.false_eq_true, if_false, hs]
  exact ⟨trivial, trivial⟩

/-- Code block node with the highlight-line attribute from the claim. -/
def c3_node : TreeNode := ⟨[("hl_lines", "2,-1,x")], "", none, []⟩

/-- Witness for claim C3 at the claim's own example `"2,-1,x"`: the accepted
set is exactly the singleton 2, and an error is recorded for `-1` and for
`x`, in that order. -/
theorem claim_C3_witness :
    (CodeBlockTreeNode.get_highlight_lines c3_node).1 = [2]
    ∧ (CodeBlockTreeNode.get_highlight_lines c3_node).2 =
      ["Line number must be positive", "x is not a number"] := by
  have h := claim_C3_highlight_lines_parsing c3_node "2,-1,x" (by decide)
    (by decide) (by decide)
  exact ⟨h.1.trans (by decide), h.2.trans (by decide)⟩

/-- Code block node on which two distinct problems are detected: a negative
highlight-line number followed by a non-numeric token. -/
def c4_node : TreeNode := ⟨[("hl_lines", "-1,x")], "", none, []⟩

/-- Claim C4 counterexample: on a node with `hl_lines = "-1,x"` the sanitize
pass detects the negative-number problem first and the non-numeric problem
second, yet the error annotation left on the node is the second message —
the claim says the retained annotation is the first problem detected. -/
theorem claim_C4_counterexample_last_error_retained :
    cbProblems c4_node =
      ["Line number must be positive", "x is not a number"]
    ∧ (CodeBlockTreeNode.sanitize_node [] c4_node).error_message =
      some "x is not a number"
    ∧ ("x is not a number" : String) ≠ "Line number must be positive" := by
  refine ⟨by decide, by decide, by decide⟩

/-- Claim C4 as amended: at most one error annotation is retained per node
(the field holds a single optional message), and when several problems are
detected on the same node during `sanitize_node`, the annotation left is the
LAST problem detected, not the first: each later assignment overwrites the
earlier one. -/
theorem claim_C4_error_annotation_last_wins :
    (∀ (breadcrumb : List Nat) (n : TreeNode) (e : String),
      (cbProblems n).getLast? = some e →
      (CodeBlockTreeNode.sanitize_node breadcrumb n).error_message = some e)
    ∧ (∀ (breadcrumb : List Nat) (n : TreeNode) (e : String),
      (imageProblems n).getLast? = some e →
      (ImageTreeNode.sanitize_node breadcrumb n).error_message = some e)
    ∧ (∀ (breadcrumb : List Nat) (n : TreeNode) (e : String),
      (ytProblems n).getLast? = some e →
      (YoutubeTreeNode.sanitize_node breadcrumb n).error_message = some e) := by
  refine ⟨?_, ?_, ?_⟩ <;> intro breadcrumb n e h
  · rw [cb_sanitize_eq]; simp [applyErrors_eq_getLast, h]
  · rw [image_sanitize_eq]; simp [applyErrors_eq_getLast, h]
  · rw [yt_sanitize_eq]; simp [applyErrors_eq_getLast, h]

/-- Code block node with a non-numeric token followed by a negative one. -/
def c4_witness_node : TreeNode := ⟨[("hl_lines", "abc,-5")], "", none, []⟩

/-- Witness for the amended claim C4: with problems detected in the order
non-numeric then negative, the retained annotation is the negative-number
message (the last one). -/
theorem claim_C4_witness :
    (CodeBlockTreeNode.sanitize_node [] c4_witness_node).error_message =
      some "Line number must be positive" :=
  claim_C4_error_annotation_last_wins.1 [] c4_witness_node
    "Line number must be positive" (by decide)

/-- Youtube node wrapping the short-link URL from the claim. -/
def c5_good_node : TreeNode := ⟨[], "https://youtu.be/dQw4w9WgXcQ", none, []⟩

/-- Claim C5: a youtube node whose raw content is the short link yields the
video id `dQw4w9WgXcQ` and an embed referencing it; for any node whose raw
content splits to a netloc outside the domain allow-list, no video id is
extracted, `sanitize_node` records a validation error, and both render hooks
return the inner content unchanged. -/
theorem claim_C5_youtube_embed_and_domain_rejection :
    (YoutubeTreeNode.get_youtube_video_id c5_good_node = "dQw4w9WgXcQ"
      ∧ ∀ inner_html, YoutubeTreeNode.render_html c5_good_node inner_html =
        "<div class=\"embed-container center-block\">\n        <div class=\"embed-video\">\n            <iframe width=\"560\" height=\"315\" src=\"https://www.youtube.com/embed/dQw4w9WgXcQ\" frameborder=\"0\" allowfullscreen=\"true\"></iframe>\n        </div>\n    </div>\n    ")
    ∧ ∀ (n : TreeNode) (u : SplitResult),
        pyUrlsplit (pyStrip n.get_raw_content) = some u →
        YoutubeTreeNode.allowed_domains.contains u.netloc = false →
        YoutubeTreeNode.get_youtube_video_id n = ""
        ∧ (∀ breadcrumb,
            (YoutubeTreeNode.sanitize_node breadcrumb n).error_message =
              some "Missing or erroneous video URL")
        ∧ (∀ inner_html,
            YoutubeTreeNode.render_html n inner_html = inner_html)
        ∧ (∀ inner_text,
            YoutubeTreeNode.render_text n inner_text = inner_text) := by
  constructor
  · exact ⟨rfl, fun _ => rfl⟩
  · intro n u hsplit hdom
    have hdom' : u.netloc ∉ YoutubeTreeNode.allowed_domains := by
      simpa using hdom
    have hid : YoutubeTreeNode.get_youtube_video_id n = "" := by
      cases hurl : (pyStrip n.get_raw_content).isEmpty with
      | true => simp [YoutubeTreeNode.get_youtube_video_id, hurl]
      | false =>
        simp [YoutubeTreeNode.get_youtube_video_id, hurl, hsplit, hdom']
    refine ⟨hid, ?_, ?_, ?_⟩
    · intro breadcrumb
      rw [yt_sanitize_unfold]
      rw [if_pos (show (YoutubeTreeNode.get_youtube_video_id n).isEmpty = true
        by rw [hid]; decide)]
    · intro inner_html
      simp [YoutubeTreeNode.render_html, hid,
        show ("" : String).isEmpty = true from rfl]
    · intro inner_text
      simp [YoutubeTreeNode.render_text, hid,
        show ("" : String).isEmpty = true from rfl]

/-- Youtube node wrapping a URL on a domain outside the allow-list. -/
def c5_bad_node : TreeNode := ⟨[], "https://vimeo.com/12345", none, []⟩

/-- Witness for claim C5 at a non-allow-listed domain: a validation error is
recorded and both render hooks return the inner content unchanged. -/
theorem claim_C5_witness :
    YoutubeTreeNode.get_youtube_video_id c5_bad_node = ""
    ∧ (YoutubeTreeNode.sanitize_node [] c5_bad_node).error_message =
      some "Missing or erroneous video URL"
    ∧ YoutubeTreeNode.render_html c5_bad_node "inner html" = "inner html"
    ∧ YoutubeTreeNode.render_text c5_bad_node "inner text" = "inner text" := by
  have h := claim_C5_youtube_embed_and_domain_rejection.2 c5_bad_node
    ⟨"https", "vimeo.com", "/12345", "", ""⟩ (by decide) (by decide)
  exact ⟨h.1, h.2.1 [], h.2.2.1 "inner html", h.2.2.2 "inner text"⟩

/-- Claim C6: for a code-block node whose language attribute names a language
the highlighter does not recognise, `sanitize_node` records the
`Unknown language` validation error, and `render_html` does not fail for
that reason: it falls back to the default plain-text lexer and still returns
a rendered output. -/
theorem claim_C6_unknown_language_recoverable (n : TreeNode)
    (hne : CodeBlockTreeNode.get_language_name n ≠ "")
    (hunk : known_language_names.contains
      (CodeBlockTreeNode.get_language_name n) = false) :
    (∀ breadcrumb,
      (CodeBlockTreeNode.sanitize_node breadcrumb n).error_message =
        some "Unknown language")
    ∧ ∀ (highlighter : String → List Int → Int → String → String)
        (inner_html : String),
        CodeBlockTreeNode.render_html highlighter n inner_html =
          Except.ok (CodeBlockTreeNode.render_html_body highlighter
            CodeBlockTreeNode.default_language_name n) := by
  have hunk' : CodeBlockTreeNode.get_language_name n ∉ known_language_names :=
    by simpa using hunk
  have hlex : get_lexer_by_name (CodeBlockTreeNode.get_language_name n) =
      Except.error "ClassNotFound" := by
    simp [get_lexer_by_name, hunk']
  have hempty : (CodeBlockTreeNode.get_language_name n).isEmpty = false := by
    cases hemp : (CodeBlockTreeNode.get_language_name n).isEmpty with
    | true =>
      exact absurd ((String.isEmpty_iff _).mp hemp) hne
    | false => rfl
  have hevents : CodeBlockTreeNode.langEvents n = ["Unknown language"] := by
    simp [CodeBlockTreeNode.langEvents, hempty, hlex]
  constructor
  · intro breadcrumb
    rw [cb_sanitize_unfold]
    simp [hevents, applyErrors]
  · intro highlighter inner_html
    simp [CodeBlockTreeNode.render_html, hlex,
      show get_lexer_by_name CodeBlockTreeNode.default_language_name =
        Except.ok CodeBlockTreeNode.default_language_name from rfl]

/-- Code block node whose language attribute names an unknown language. -/
def c6_node : TreeNode := ⟨[("language", "klingon")], "", none, []⟩

/-- Witness for claim C6 at the unknown language name `klingon`. -/
theorem claim_C6_witness :
    (CodeBlockTreeNode.sanitize_node [] c6_node).error_message =
      some "Unknown language"
    ∧ CodeBlockTreeNode.render_html (fun _ _ _ source => source) c6_node "" =
      Except.ok (CodeBlockTreeNode.render_html_body
        (fun _ _ _ source => source)
        CodeBlockTreeNode.default_language_name c6_node) := by
  have h := claim_C6_unknown_language_recoverable c6_node (by decide)
    (by decide)
  exact ⟨h.1 [], h.2 (fun _ _ _ source => source) ""⟩

theorem head?_dropWhile_eq_false {α : Type} (p : α → Bool) :
    ∀ (ls : List α) (a : α), (ls.dropWhile p).head? = some a → p a = false := by
  intro ls
  induction ls with
  | nil => intro a h; simp [List.dropWhile] at h
  | cons x xs ih =>
    intro a h
    rw [List.dropWhile_cons] at h
    cases hx : p x with
    | true => rw [hx] at h; simp only [if_pos rfl] at h; exact ih a h
    | false =>
      rw [hx] at h
      simp only [Bool.false_eq_true, if_false, List.head?_cons,
        Option.some.injEq] at h
      rw [← h]; exact hx

theorem head?_append_left {α : Type} (l l' : List α) (a : α)
    (h : l.head? = some a) : (l ++ l').head? = some a := by
  cases l with
  | nil => simp at h
  | cons x xs => simpa using h

/-- Claim C7: `get_cleaned_content` strips all leading blank lines and all
trailing blank lines of the verbatim content and preserves every interior
line verbatim and in order: the original line list decomposes into
all-blank leading lines, the cleaned lines unchanged, and all-blank trailing
lines, with the cleaned block neither starting nor ending with a blank line,
and the string result is exactly the cleaned lines joined by newlines. -/
theorem claim_C7_content_trimming (n : TreeNode) :
    ∃ lead trail : List String,
      pySplitlines n.content =
        lead ++ CodeBlockTreeNode.get_cleaned_content_lines n ++ trail
      ∧ (∀ l ∈ lead, CodeBlockTreeNode.isBlankLine l = true)
      ∧ (∀ l ∈ trail, CodeBlockTreeNode.isBlankLine l = true)
      ∧ (∀ a, (CodeBlockTreeNode.get_cleaned_content_lines n).head? = some a →
          CodeBlockTreeNode.isBlankLine a = false)
      ∧ (∀ a, (CodeBlockTreeNode.get_cleaned_content_lines n).getLast? =
          some a → CodeBlockTreeNode.isBlankLine a = false)
      ∧ CodeBlockTreeNode.get_cleaned_content n =
          String.intercalate "\n"
            (CodeBlockTreeNode.get_cleaned_content_lines n) := by
  have hdec : (pySplitlines n.content).dropWhile CodeBlockTreeNode.isBlankLine
      = CodeBlockTreeNode.get_cleaned_content_lines n ++
        (((pySplitlines n.content).dropWhile
          CodeBlockTreeNode.isBlankLine).reverse.takeWhile
            CodeBlockTreeNode.isBlankLine).reverse := by
    show _ = (((pySplitlines n.content).dropWhile
        CodeBlockTreeNode.isBlankLine).reverse.dropWhile
          CodeBlockTreeNode.isBlankLine).reverse ++ _
    rw [← List.reverse_append, List.takeWhile_append_dropWhile,
      List.reverse_reverse]
  refine ⟨(pySplitlines n.content).takeWhile CodeBlockTreeNode.isBlankLine,
    (((pySplitlines n.content).dropWhile
      CodeBlockTreeNode.isBlankLine).reverse.takeWhile
        CodeBlockTreeNode.isBlankLine).reverse,
    ?_, ?_, ?_, ?_, ?_, rfl⟩
  · conv_lhs =>
      rw [← List.takeWhile_append_dropWhile
        (p := CodeBlockTreeNode.isBlankLine) (l := pySplitlines n.content),
        hdec]
    rw [List.append_assoc]
  · intro l hl
    exact List.mem_takeWhile_imp hl
  · intro l hl
    exact List.mem_takeWhile_imp (List.mem_reverse.mp hl)
  · intro a ha
    refine head?_dropWhile_eq_false CodeBlockTreeNode.isBlankLine
      (pySplitlines n.content) a ?_
    rw [hdec]
    exact head?_append_left _ _ a ha
  · intro a ha
    have hrw : CodeBlockTreeNode.get_cleaned_content_lines n =
        (((pySplitlines n.content).dropWhile
          CodeBlockTreeNode.isBlankLine).reverse.dropWhile
            CodeBlockTreeNode.isBlankLine).reverse := rfl
    rw [hrw, List.getLast?_reverse] at ha
    exact head?_dropWhile_eq_false CodeBlockTreeNode.isBlankLine
      ((pySplitlines n.content).dropWhile
        CodeBlockTreeNode.isBlankLine).reverse a ha

/-- Code block node with leading, interior and trailing blank lines. -/
def c7_node : TreeNode := ⟨[], "\n   \nfirst line\n\n  second line\n\n\n", none, []⟩

/-- Witness for claim C7 at a concrete verbatim block with leading, interior
and trailing blank lines. -/
theorem claim_C7_witness :
    ∃ lead trail : List String,
      pySplitlines c7_node.content =
        lead ++ CodeBlockTreeNode.get_cleaned_content_lines c7_node ++ trail
      ∧ (∀ l ∈ lead, CodeBlockTreeNode.isBlankLine l = true)
      ∧ (∀ l ∈ trail, CodeBlockTreeNode.isBlankLine l = true)
      ∧ (∀ a,
          (CodeBlockTreeNode.get_cleaned_content_lines c7_node).head? =
            some a → CodeBlockTreeNode.isBlankLine a = false)
      ∧ (∀ a,
          (CodeBlockTreeNode.get_cleaned_content_lines c7_node).getLast? =
            some a → CodeBlockTreeNode.isBlankLine a = false)
      ∧ CodeBlockTreeNode.get_cleaned_content c7_node =
          String.intercalate "\n"
            (CodeBlockTreeNode.get_cleaned_content_lines c7_node) :=
  claim_C7_content_trimming c7_node

/-- Claim C8: each of the three sanitize hooks is idempotent — running it
twice leaves exactly the state reached after running it once — and none of
them changes the node's attributes, content or child sequence. -/
theorem claim_C8_sanitize_idempotent_and_shape_preserving
    (breadcrumb : List Nat) (n : TreeNode) :
    (CodeBlockTreeNode.sanitize_node breadcrumb
        (CodeBlockTreeNode.sanitize_node breadcrumb n) =
      CodeBlockTreeNode.sanitize_node breadcrumb n
      ∧ (CodeBlockTreeNode.sanitize_node breadcrumb n).attrs = n.attrs
      ∧ (CodeBlockTreeNode.sanitize_node breadcrumb n).content = n.content
      ∧ (CodeBlockTreeNode.sanitize_node breadcrumb n).children = n.children)
    ∧ (ImageTreeNode.sanitize_node breadcrumb
        (ImageTreeNode.sanitize_node breadcrumb n) =
      ImageTreeNode.sanitize_node breadcrumb n
      ∧ (ImageTreeNode.sanitize_node breadcrumb n).attrs = n.attrs
      ∧ (ImageTreeNode.sanitize_node breadcrumb n).content = n.content
      ∧ (ImageTreeNode.sanitize_node breadcrumb n).children = n.children)
    ∧ (YoutubeTreeNode.sanitize_node breadcrumb
        (YoutubeTreeNode.sanitize_node breadcrumb n) =
      YoutubeTreeNode.sanitize_node breadcrumb n
      ∧ (YoutubeTreeNode.sanitize_node breadcrumb n).attrs = n.attrs
      ∧ (YoutubeTreeNode.sanitize_node breadcrumb n).content = n.content
      ∧ (YoutubeTreeNode.sanitize_node breadcrumb n).children = n.children) := by
  refine ⟨⟨?_, ?_, ?_, ?_⟩, ⟨?_, ?_, ?_, ?_⟩, ⟨?_, ?_, ?_, ?_⟩⟩
  · rw [cb_sanitize_eq breadcrumb n, cb_sanitize_eq]
    show ({ n with error_message := (applyErrors (cbProblems n)
      (applyErrors (cbProblems n) n.error_message)) } : TreeNode) = _
    rw [applyErrors_self_idem]
  · rw [cb_sanitize_eq]
  · rw [cb_sanitize_eq]
  · rw [cb_sanitize_eq]
  · rw [image_sanitize_eq breadcrumb n, image_sanitize_eq]
    show ({ n with error_message := (applyErrors (imageProblems n)
      (applyErrors (imageProblems n) n.error_message)) } : TreeNode) = _
    rw [applyErrors_self_idem]
  · rw [image_sanitize_eq]
  · rw [image_sanitize_eq]
  · rw [image_sanitize_eq]
  · rw [yt_sanitize_eq breadcrumb n, yt_sanitize_eq]
    show ({ n with error_message := (applyErrors (ytProblems n)
      (applyErrors (ytProblems n) n.error_message)) } : TreeNode) = _
    rw [applyErrors_self_idem]
  · rw [yt_sanitize_eq]
  · rw [yt_sanitize_eq]
  · rw [yt_sanitize_eq]

/-- Witness for claim C8 at a concrete image node carrying two problems. -/
theorem claim_C8_witness :
    ImageTreeNode.sanitize_node [0]
        (ImageTreeNode.sanitize_node [0]
          ⟨[("width", "-2"), ("src", "http://x/a.png")], "", none, []⟩) =
      ImageTreeNode.sanitize_node [0]
        ⟨[("width", "-2"), ("src", "http://x/a.png")], "", none, []⟩ :=
  (claim_C8_sanitize_idempotent_and_shape_preserving [0]
    ⟨[("width", "-2"), ("src", "http://x/a.png")], "", none, []⟩).2.1.1

/-- Claim C10: the collapse plain-text render hook is the identity on its
inner-text argument, for both tag variants (which share the inherited
`render_text` and differ only in their canonical tag name). -/
theorem claim_C10_collapse_render_text_identity :
    (∀ (n : TreeNode) (inner_text : String),
      CollapseBaseTreeNode.render_text n inner_text = inner_text)
    ∧ CollapseTreeNode.canonical_tag_name = "collapse"
    ∧ Collapse2TreeNode.canonical_tag_name = "collapse2" :=
  ⟨fun _ _ => rfl, rfl, rfl⟩

/-- Witness for claim C10 at a concrete node and string. -/
theorem claim_C10_witness :
    CollapseBaseTreeNode.render_text ⟨[], "", none, []⟩ "some inner text" =
      "some inner text" :=
  claim_C10_collapse_render_text_identity.1 ⟨[], "", none, []⟩
    "some inner text"

end PySkCode
